import Mathlib

/-!
Verification of the `upload-workflow-artifacts-to-release` GitHub Action
scripts against their natural-language specification.

The development shallowly embeds the JavaScript sources:

* telemetry-free pure fragments (input validation, entry-name sanitization,
  asset-name computation, error classification) become Lean functions;
* the effectful pipeline (tag management, artifact download, extraction,
  upload, run summary) becomes explicit state passing: each remote or
  filesystem interaction is represented by an abstract outcome value fed to
  the embedded control flow, and the embedding returns the observable
  results (outputs, emitted write calls, final file state, call trace).

Node's `path.posix` functions (`join`, `normalize`, `basename`) that the
scripts rely on are modelled from their documented semantics.
-/

namespace UploadArtifacts

/-! ## Character-list string helpers -/

/-- Model of the JavaScript global replacement `s.replace(/\.\./g, '')`:
scan left to right, removing each non-overlapping occurrence of `".."`. -/
def removeDotDot : List Char → List Char
  | '.' :: '.' :: rest => removeDotDot rest
  | c :: rest => c :: removeDotDot rest
  | [] => []

/-- Model of the JavaScript replacement `s.replace(/^\/+/, '')`: drop every
leading `'/'`. -/
def stripLeadingSlashes : List Char → List Char
  | '/' :: rest => stripLeadingSlashes rest
  | cs => cs

/-- Boolean test that `pre` is a list prefix of `s`; backs the model of
JavaScript `String.prototype.startsWith`. -/
def listStarts : List Char → List Char → Bool
  | _, [] => true
  | [], _ :: _ => false
  | c :: cs, p :: ps => c == p && listStarts cs ps

/-- Model of JavaScript `s.startsWith(pre)`. -/
def strStartsWith (s pre : String) : Bool :=
  listStarts s.data pre.data

/-- Boolean substring test on character lists; backs the model of
JavaScript `String.prototype.includes`. -/
def listContainsSub : List Char → List Char → Bool
  | [], sub => sub.isEmpty
  | c :: cs, sub => listStarts (c :: cs) sub || listContainsSub cs sub

/-- Model of JavaScript `s.includes(sub)`. -/
def strContains (s sub : String) : Bool :=
  listContainsSub s.data sub.data

/-! ## Node `path.posix` model -/

/-- Split a character list on `'/'`, keeping empty segments, as Node's
path normalization does before processing segments. -/
def splitOnSlashAux (acc : List Char) : List Char → List (List Char)
  | [] => [acc.reverse]
  | '/' :: rest => acc.reverse :: splitOnSlashAux [] rest
  | c :: rest => splitOnSlashAux (c :: acc) rest

/-- One step of Node's `normalizeString` segment processing. The stack is
kept in reverse order. Empty and `"."` segments are dropped; `".."` pops a
normal segment, stacks on another `".."` when above-root segments are
allowed (relative paths), and is dropped otherwise (absolute paths). -/
def normStep (allowAboveRoot : Bool) (stack : List (List Char)) (seg : List Char) :
    List (List Char) :=
  if seg = [] ∨ seg = ['.'] then stack
  else if seg = ['.', '.'] then
    match stack with
    | top :: rest => if top = ['.', '.'] then seg :: stack else rest
    | [] => if allowAboveRoot then [seg] else []
  else seg :: stack

/-- Intercalate `'/'` between path segments. -/
def joinSegs : List (List Char) → List Char
  | [] => []
  | [s] => s
  | s :: rest => s ++ '/' :: joinSegs rest

/-- Model of Node `path.posix.normalize`, following the documented
behavior: resolve `"."` and `".."` segments, collapse repeated separators,
preserve a trailing separator, return `"."` (or `"/"`) for empty results. -/
def normalizePath (s : String) : String :=
  let cs := s.data
  if cs = [] then "." else
  let isAbs : Bool := match cs with | '/' :: _ => true | _ => false
  let trailing : Bool := match cs.getLast? with | some '/' => true | _ => false
  let segs := splitOnSlashAux [] cs
  let stack := segs.foldl (normStep (!isAbs)) []
  let body := joinSegs stack.reverse
  if body = [] then
    if isAbs then "/" else if trailing then "./" else "."
  else
    let withTrail := if trailing then body ++ ['/'] else body
    if isAbs then ⟨'/' :: withTrail⟩ else ⟨withTrail⟩

/-- Model of Node `path.posix.join` for two arguments: empty arguments are
ignored, the rest are joined with `'/'` and normalized; the empty join
yields `"."`. -/
def pathJoin (a b : String) : String :=
  if a.data = [] then (if b.data = [] then "." else normalizePath b)
  else if b.data = [] then normalizePath a
  else normalizePath ⟨a.data ++ '/' :: b.data⟩

/-- Model of Node `path.posix.basename`: drop trailing separators, then
take the final segment. -/
def pathBasename (p : String) : String :=
  let r := p.data.reverse.dropWhile (fun c => c = '/')
  ⟨(r.takeWhile (fun c => c ≠ '/')).reverse⟩

/-! ## Archive extraction (`extractArtifact`, src/unnamed/part_000) -/

/-- Model of the zip-entry name sanitization in `extractArtifact`:
`entry.fileName.replace(/\.\./g, '').replace(/^\/+/, '')`. -/
def sanitizeEntryName (s : String) : String :=
  ⟨stripLeadingSlashes (removeDotDot s.data)⟩

/-- Model of the JavaScript test `/\/$/.test(entry.fileName)` used to
recognize directory entries. -/
def endsWithSlash (s : String) : Bool :=
  match s.data.getLast? with
  | some '/' => true
  | _ => false

/-- Observable effect of processing one zip entry in `extractArtifact`. -/
inductive EntryAction where
  /-- The entry was skipped with a `Skipping potentially dangerous path`
  warning; no directory is created and no file is written. -/
  | skippedDangerous (originalName : String)
  /-- A directory was created at the given output path. -/
  | madeDir (outputPath : String)
  /-- The entry's content was written to a file at the given output path. -/
  | wroteFile (outputPath : String) (originalName : String)
deriving DecidableEq

/-- Embedding of the per-entry body of `extractArtifact`'s
`zipfile.on('entry', ...)` handler: sanitize the entry name, join it under
the extraction directory, skip with a warning unless the output path
starts with the extraction directory, then create a directory or write the
file depending on the entry kind. -/
def processEntry (extractDir : String) (entryName : String) : EntryAction :=
  let sanitized := sanitizeEntryName entryName
  let outputPath := pathJoin extractDir sanitized
  if strStartsWith outputPath extractDir then
    if endsWithSlash entryName then .madeDir outputPath
    else .wroteFile outputPath entryName
  else
    .skippedDangerous entryName

/-! ## Tag manager (first script of src/unnamed/part_000) -/

/-- Result of the remote tag lookup
`GET /repos/{owner}/{repo}/git/refs/tags/{tag}`: either the tag was found
with its current target SHA, or the request threw with an HTTP status. -/
inductive TagLookup where
  | found (sha : String)
  | httpError (status : Nat)
deriving DecidableEq

/-- A write call the tag script can issue against the hosting API. -/
inductive GitWrite where
  /-- Call `POST /repos/{owner}/{repo}/git/refs` creating `refs/tags/{tag}`. -/
  | createRef (tag sha : String)
  /-- Call `PATCH /repos/{owner}/{repo}/git/refs/tags/{tag}` with `force: true`. -/
  | updateRefForce (tag sha : String)
deriving DecidableEq

/-- The four action outputs set by the tag script. -/
structure TagOutputs where
  result : String
  message : String
  tag : String
  commit : String
deriving DecidableEq

/-- Embedding of the tag script's `main` after the commit has been
resolved: branch on the lookup result, producing the action outputs and
the list of write calls issued, in order. A `404` lookup error takes the
create path; any other lookup error takes the `failed` path with empty
`tag`/`commit` outputs. Write calls are assumed accepted by the remote. -/
def ensureTag (tag commit : String) (skipUpdate : Bool) (lookup : TagLookup) :
    TagOutputs × List GitWrite :=
  match lookup with
  | .found sha =>
    if sha = commit then
      ({ result := "created"
         message := "Tag " ++ tag ++ " already exists and points to the same commit."
         tag := tag, commit := commit }, [])
    else if skipUpdate then
      ({ result := "skipped"
         message := "Tag " ++ tag ++ " exists but points to a different commit. Skipping update as per input."
         tag := tag, commit := sha }, [])
    else
      ({ result := "updated"
         message := "Tag " ++ tag ++ " updated successfully to point to commit " ++ commit ++ "."
         tag := tag, commit := commit }, [GitWrite.updateRefForce tag commit])
  | .httpError status =>
    if status = 404 then
      ({ result := "created"
         message := "Tag " ++ tag ++ " created successfully with commit " ++ commit ++ "."
         tag := tag, commit := commit }, [GitWrite.createRef tag commit])
    else
      ({ result := "failed"
         message := "Failed to create tag " ++ tag ++ "."
         tag := "", commit := "" }, [])

/-- Final target of the remote tag after the emitted write calls are
applied to a tag currently pointing at `current`. -/
def finalTagTarget (current : String) (writes : List GitWrite) : String :=
  writes.foldl
    (fun _ w => match w with
      | .createRef _ sha => sha
      | .updateRefForce _ sha => sha)
    current

/-! ## Input validation (`validateInputs`, src/unnamed/part_000) -/

/-- Character class of the validation regexes: `[a-zA-Z0-9_.-]`. The same
class appears (negated) in the artifact-name sanitizer. -/
def allowedNameChar (c : Char) : Bool :=
  ('a' ≤ c && c ≤ 'z') || ('A' ≤ c && c ≤ 'Z') || ('0' ≤ c && c ≤ '9') ||
    c = '_' || c = '.' || c = '-'

/-- Model of `/^[a-zA-Z0-9_.-]+\/[a-zA-Z0-9_.-]+$/.test(s)`: a maximal
nonempty run of allowed characters, then a literal `'/'`, then a nonempty
run of allowed characters reaching the end of the string. -/
def validRepoSlug (s : String) : Bool :=
  match s.data.dropWhile allowedNameChar with
  | x :: b =>
      (x == '/') && !(s.data.takeWhile allowedNameChar).isEmpty &&
        !b.isEmpty && b.all allowedNameChar
  | [] => false

/-- Character class `\d`, i.e. `[0-9]`. -/
def isDigitChar (c : Char) : Bool :=
  '0' ≤ c && c ≤ '9'

/-- Model of `/^\d+$/.test(s)`: the string is a nonempty run of decimal
digits. -/
def validNumericId (s : String) : Bool :=
  !s.data.isEmpty && s.data.all isDigitChar

/-- The five raw inputs read by the artifact-replication script. -/
structure RawInputs where
  token : String
  workflowRepo : String
  workflowRunID : String
  releaseRepo : String
  releaseID : String
deriving DecidableEq

/-- Embedding of `validateInputs` (src/unnamed/part_000): the checks run
in source order and the first failing check throws a `GitHubActionError`
with the corresponding message. -/
def validateInputs (i : RawInputs) : Except String RawInputs :=
  if validRepoSlug i.workflowRepo = false then
    .error ("Invalid workflow_repo format: " ++ i.workflowRepo ++ ". Expected format: owner/repo")
  else if validRepoSlug i.releaseRepo = false then
    .error ("Invalid release_repo format: " ++ i.releaseRepo ++ ". Expected format: owner/repo")
  else if validNumericId i.workflowRunID = false then
    .error ("Invalid run_id: " ++ i.workflowRunID ++ ". Must be a numeric ID")
  else if validNumericId i.releaseID = false then
    .error ("Invalid release_id: " ++ i.releaseID ++ ". Must be a numeric ID")
  else .ok i

/-! ## Artifact download (`downloadArtifact`, src/unnamed/part_003) -/

/-- Model of `artifact.name.replace(/[^a-zA-Z0-9_.-]/g, '_')`. -/
def sanitizeArtifactName (s : String) : String :=
  ⟨s.data.map (fun c => if allowedNameChar c then c else '_')⟩

/-- Staging path of an artifact's downloaded archive:
`path.join('./archived-artifacts', sanitizedName + '.zip')`. -/
def archivePathFor (name : String) : String :=
  pathJoin "./archived-artifacts" (sanitizeArtifactName name ++ ".zip")

/-- Abstract transcript of one `downloadArtifact` invocation
(src/unnamed/part_003): the HTTP interaction either redirects (and the
function recurses on the redirect target), completes with status 200 and a
fully piped file, or fails in one of the ways the code distinguishes. -/
inductive DownloadStep where
  /-- A 301/302 response carrying a `location` header; the code recurses. -/
  | redirectTo (next : DownloadStep)
  /-- Status 200 and the response piped to the file until `finish`. -/
  | completed
  /-- A terminal non-200 status code. -/
  | httpStatus (code : Nat)
  /-- The request emitted `error`. -/
  | networkError (msg : String)
  /-- The 30s connection-establishment timeout fired. -/
  | connTimeout
  /-- The 5-minute total-transfer timeout fired. -/
  | totalTimeout
  /-- The write stream emitted `error` after partially writing the file. -/
  | fileWriteError (msg : String)

/-- Embedding of `downloadArtifact` (src/unnamed/part_003). The returned
`Bool` records whether the staging file still exists afterwards: every
failure path invokes `cleanup()`, which destroys the stream and unlinks
the partial file before rejecting, so failures leave `false`; success
leaves the completed archive in place and resolves with its path. -/
def downloadArtifactRun (name : String) : DownloadStep → Bool × Except String String
  | .redirectTo next => downloadArtifactRun name next
  | .completed => (true, .ok (archivePathFor name))
  | .httpStatus code =>
      (false, .error ("Failed to download artifact " ++ name ++ ": HTTP " ++ toString code))
  | .networkError m =>
      (false, .error ("Network error downloading " ++ name ++ ": " ++ m))
  | .connTimeout =>
      (false, .error ("Connection timeout downloading " ++ name))
  | .totalTimeout =>
      (false, .error ("Download timeout after 300000ms for artifact: " ++ name))
  | .fileWriteError m =>
      (false, .error ("File write error for " ++ name ++ ": " ++ m))

/-! ## Release-asset upload (`uploadFileToRelease`, src/unnamed/part_000) -/

/-- Result of the `POST .../releases/{release_id}/assets` request: either
an asset id, or a thrown request error with HTTP status and message. -/
inductive UploadAttempt where
  | success (assetId : Nat)
  | httpError (status : Nat) (message : String)
deriving DecidableEq

/-- Observable outcome of `uploadFileToRelease` for one file. -/
inductive UploadFileOutcome where
  /-- The upload succeeded; the function returns the asset data. -/
  | uploaded (assetId : Nat)
  /-- A 422 whose message includes `already_exists`: the function logs a
  warning and returns `null`, which the caller treats as a non-error. -/
  | skippedAlreadyExists
  /-- A 404: `GitHubActionError` "release not found". -/
  | errorReleaseNotFound
  /-- Any other 422: `GitHubActionError` "possibly invalid release". -/
  | errorUnprocessable (msg : String)
  /-- Any other failure: generic `GitHubActionError`. -/
  | errorOther (msg : String)
deriving DecidableEq

/-- Whether the outcome is a thrown error (caught and logged per file by
the orchestrator) as opposed to a success or the already-exists skip. -/
def uploadOutcomeIsError : UploadFileOutcome → Bool
  | .errorReleaseNotFound => true
  | .errorUnprocessable _ => true
  | .errorOther _ => true
  | _ => false

/-- Whether the orchestrator's `if (uploadResult) uploadedCount++` counts
this outcome: only a non-null return, i.e. an actual upload, counts. -/
def countsAsUploaded : UploadFileOutcome → Bool
  | .uploaded _ => true
  | _ => false

/-- Embedding of `uploadFileToRelease`'s error classification
(src/unnamed/part_000, catch block): 404 means the release is missing; a
422 with `already_exists` in the message is a non-error skip returning
`null`; any other 422 is an unprocessable failure; anything else is a
generic failure. -/
def uploadFileToRelease (fileName : String) (attempt : UploadAttempt) : UploadFileOutcome :=
  match attempt with
  | .success assetId => .uploaded assetId
  | .httpError status msg =>
    if status = 404 then .errorReleaseNotFound
    else if status = 422 then
      if strContains msg "already_exists" then .skippedAlreadyExists
      else .errorUnprocessable ("Asset upload failed - possibly invalid release: " ++ msg)
    else .errorOther ("Failed to upload " ++ fileName ++ " to release: " ++ msg)

/-! ## Run orchestrator (`main`, src/unnamed/part_000) -/

/-- An extracted file as recorded by `extractArtifact`. -/
structure ExtractedFileRec where
  originalName : String
  extractedPath : String
deriving DecidableEq

/-- Asset name chosen by the orchestrator for an extracted file: the bare
base name when the artifact yielded exactly one file, otherwise the
artifact name, an underscore, and the base name. -/
def uploadNameFor (artifactName : String) (files : List ExtractedFileRec)
    (f : ExtractedFileRec) : String :=
  if files.length = 1 then pathBasename f.extractedPath
  else artifactName ++ "_" ++ pathBasename f.extractedPath

/-- Asset names for all files of one artifact, in order. -/
def uploadNames (artifactName : String) (files : List ExtractedFileRec) : List String :=
  files.map (uploadNameFor artifactName files)

/-- How far one artifact got through download and extraction, together
with the upstream response each extracted file's upload would receive. -/
inductive ArtifactProcessing where
  /-- `downloadArtifact` or `extractArtifact` threw for this artifact. -/
  | failed (msg : String)
  /-- Extraction yielded these files; each is paired with the upstream
  result of its upload request. -/
  | extracted (files : List (ExtractedFileRec × UploadAttempt))
deriving DecidableEq

/-- One artifact of the run, with its abstract processing transcript. -/
structure ArtifactEnv where
  name : String
  processing : ArtifactProcessing
deriving DecidableEq

/-- Number of files of one artifact that `main` counts as uploaded:
thrown upload errors are caught and logged, a `null` return (already
exists) is not counted, only successful uploads increment the counter. -/
def artifactUploadedCount (a : ArtifactEnv) : Nat :=
  match a.processing with
  | .failed _ => 0
  | .extracted files =>
      (files.filter (fun fa =>
        countsAsUploaded
          (uploadFileToRelease (uploadNameFor a.name (files.map Prod.fst) fa.1) fa.2))).length

/-- The summary's `totalFilesUploaded`: the sum over all artifacts of the
per-artifact uploaded count (failed artifacts contribute zero, having been
skipped by the upload loop). -/
def totalFilesUploaded (env : List ArtifactEnv) : Nat :=
  (env.map artifactUploadedCount).sum

/-- A hosting-API call the artifact flow can issue after validation. -/
inductive ApiCall where
  | listArtifacts
  | downloadArtifact (artifactName : String)
  | uploadAsset (assetName : String)
deriving DecidableEq

/-- Network calls issued while processing one artifact: the archive
download, then (when extraction succeeded) one upload per extracted file. -/
def artifactCalls (a : ArtifactEnv) : List ApiCall :=
  ApiCall.downloadArtifact a.name ::
    (match a.processing with
     | .failed _ => []
     | .extracted files =>
         files.map (fun fa =>
           ApiCall.uploadAsset (uploadNameFor a.name (files.map Prod.fst) fa.1)))

/-- Embedding of the orchestrator `main` (src/unnamed/part_000): validate
inputs first — a validation failure aborts with no network call — then
list artifacts, process each, and fail the run exactly when artifacts
existed but `totalFilesUploaded` is zero. Returns the hosting-API call
trace and the terminal status. -/
def mainRun (i : RawInputs) (env : List ArtifactEnv) : List ApiCall × Except String Unit :=
  match validateInputs i with
  | .error e => ([], .error e)
  | .ok _ =>
    let calls := ApiCall.listArtifacts :: (env.map artifactCalls).flatten
    if env.isEmpty then (calls, .ok ())
    else if totalFilesUploaded env = 0 then
      (calls, .error "No files were successfully uploaded to the release")
    else (calls, .ok ())

/-- Shorthand: the Bool predicate over upload pairs used by C10's
hypothesis — every extracted file of the artifact classifies as the
already-exists skip. Artifacts that failed download have no extracted
files, so they satisfy the predicate vacuously. -/
def artifactAllSkipped (a : ArtifactEnv) : Bool :=
  match a.processing with
  | .failed _ => true
  | .extracted files =>
      files.all (fun fa =>
        decide (uploadFileToRelease (uploadNameFor a.name (files.map Prod.fst) fa.1) fa.2
          = UploadFileOutcome.skippedAlreadyExists))

/-! ## Claim theorems -/

/-- C1: every zip entry processed by `extractArtifact` is written (file or
directory) only when the sanitized output path — the entry name with every
`..` occurrence stripped and leading separators removed, joined under the
extraction directory — starts with the extraction directory; whenever the
sanitized path fails that containment check the entry is skipped with a
warning, so extraction never writes outside the extraction root. -/
theorem extractEntry_confined_to_root (extractDir entryName : String) :
    (∀ p orig, processEntry extractDir entryName = EntryAction.wroteFile p orig →
        strStartsWith p extractDir = true)
  ∧ (∀ p, processEntry extractDir entryName = EntryAction.madeDir p →
        strStartsWith p extractDir = true)
  ∧ (strStartsWith (pathJoin extractDir (sanitizeEntryName entryName)) extractDir = false →
        processEntry extractDir entryName = EntryAction.skippedDangerous entryName) := by
  cases hg : strStartsWith (pathJoin extractDir (sanitizeEntryName entryName)) extractDir with
  | true =>
      cases hd : endsWithSlash entryName with
      | true => simp [processEntry, hg, hd]
      | false =>
          refine ⟨?_, ?_, ?_⟩
          · intro p orig hp
            simp [processEntry, hg, hd] at hp
            rw [← hp.1]
            exact hg
          · intro p hp
            simp [processEntry, hg, hd] at hp
          · intro hfalse
            exact absurd hfalse (by simp)
  | false => simp [processEntry, hg]

/-- Witness for C1 at the spec's path-traversal fixture: the entry
`../../etc/passwd` sanitizes to `etc/passwd`, is written inside the root,
and the written path starts with the extraction directory. -/
theorem extractEntry_confined_to_root_witness :
    processEntry "extracted-artifacts/a" "../../etc/passwd"
      = EntryAction.wroteFile "extracted-artifacts/a/etc/passwd" "../../etc/passwd"
  ∧ strStartsWith "extracted-artifacts/a/etc/passwd" "extracted-artifacts/a" = true :=
  ⟨by rfl,
   (extractEntry_confined_to_root "extracted-artifacts/a" "../../etc/passwd").1
     "extracted-artifacts/a/etc/passwd" "../../etc/passwd" (by rfl)⟩

/-- C3: when the remote tag lookup shows tag `T` already pointing at the
desired commit `C`, `ensureTag` issues no write call and reports result
`created` with outputs `tag = T` and `commit = C`, for any `skip_update`
setting — the idempotent "no action needed" outcome. -/
theorem ensureTag_noop_when_already_at_commit (T C : String) (skip : Bool) :
    ensureTag T C skip (TagLookup.found C)
      = ({ result := "created"
           message := "Tag " ++ T ++ " already exists and points to the same commit."
           tag := T, commit := C }, []) := by
  simp [ensureTag]

/-- C4: when tag `T` exists pointing at `C1 ≠ C2`, `ensureTag` with
`skipUpdate = false` force-updates the tag (one update write, final target
`C2`) and reports `updated` with commit output `C2`; with
`skipUpdate = true` it issues no write (final target stays `C1`) and
reports `skipped` with commit output equal to the tag's current target
`C1`. -/
theorem ensureTag_update_and_skip (T C1 C2 : String) (h : C1 ≠ C2) :
    ((ensureTag T C2 false (TagLookup.found C1)).1.result = "updated"
      ∧ (ensureTag T C2 false (TagLookup.found C1)).1.commit = C2
      ∧ (ensureTag T C2 false (TagLookup.found C1)).2 = [GitWrite.updateRefForce T C2]
      ∧ finalTagTarget C1 (ensureTag T C2 false (TagLookup.found C1)).2 = C2)
  ∧ ((ensureTag T C2 true (TagLookup.found C1)).1.result = "skipped"
      ∧ (ensureTag T C2 true (TagLookup.found C1)).1.commit = C1
      ∧ (ensureTag T C2 true (TagLookup.found C1)).2 = []
      ∧ finalTagTarget C1 (ensureTag T C2 true (TagLookup.found C1)).2 = C1) := by
  simp [ensureTag, h, finalTagTarget]

/-- Witness for C4 at tag `v1` with current target `a` and desired target
`b`. -/
theorem ensureTag_update_and_skip_witness :
    (ensureTag "v1" "b" false (TagLookup.found "a")).1.result = "updated"
  ∧ finalTagTarget "a" (ensureTag "v1" "b" false (TagLookup.found "a")).2 = "b"
  ∧ (ensureTag "v1" "b" true (TagLookup.found "a")).1.result = "skipped"
  ∧ (ensureTag "v1" "b" true (TagLookup.found "a")).1.commit = "a" := by
  have g := ensureTag_update_and_skip "v1" "a" "b" (by decide)
  exact ⟨g.1.1, g.1.2.2.2, g.2.1, g.2.2.1⟩

/-- C5: a 422 upload response whose message includes `already_exists` is
classified as the non-error skip (a warning, `null` return, processing
continues), not as a failure of that file; a 422 whose message lacks the
indication is classified as an unprocessable failure. -/
theorem upload422_already_exists_is_skip (fileName msg : String) :
    (strContains msg "already_exists" = true →
      uploadFileToRelease fileName (UploadAttempt.httpError 422 msg)
          = UploadFileOutcome.skippedAlreadyExists
        ∧ uploadOutcomeIsError
            (uploadFileToRelease fileName (UploadAttempt.httpError 422 msg)) = false)
  ∧ (strContains msg "already_exists" = false →
      uploadFileToRelease fileName (UploadAttempt.httpError 422 msg)
        = UploadFileOutcome.errorUnprocessable
            ("Asset upload failed - possibly invalid release: " ++ msg)) := by
  constructor <;> intro h <;> simp [uploadFileToRelease, h, uploadOutcomeIsError]

/-- Witness for C5 on a message carrying `already_exists` and one
without. -/
theorem upload422_already_exists_is_skip_witness :
    uploadFileToRelease "a.txt" (UploadAttempt.httpError 422 "Validation Failed: name already_exists")
      = UploadFileOutcome.skippedAlreadyExists
  ∧ uploadFileToRelease "a.txt" (UploadAttempt.httpError 422 "Validation Failed")
      = UploadFileOutcome.errorUnprocessable
          ("Asset upload failed - possibly invalid release: " ++ "Validation Failed") :=
  ⟨((upload422_already_exists_is_skip "a.txt" "Validation Failed: name already_exists").1
      (by rfl)).1,
   (upload422_already_exists_is_skip "a.txt" "Validation Failed").2 (by rfl)⟩

/-- C6: an artifact that yielded exactly one file uploads it under the
file's base name; an artifact that yielded two or more files uploads each
under the artifact's name joined to the file's base name with an
underscore. -/
theorem upload_naming_rule (artifactName : String) (files : List ExtractedFileRec) :
    (∀ f, files = [f] →
        uploadNames artifactName files = [pathBasename f.extractedPath])
  ∧ (2 ≤ files.length →
        uploadNames artifactName files
          = files.map (fun f => artifactName ++ "_" ++ pathBasename f.extractedPath)) := by
  constructor
  · intro f hf
    subst hf
    simp [uploadNames, uploadNameFor]
  · intro h
    have hne : files.length ≠ 1 := by omega
    simp [uploadNames, uploadNameFor, hne]

/-- Witness for C6 on the spec's end-to-end scenario: artifact `logs` with
one file `a.txt` and artifact `build` with files `x.bin`, `y.bin`. -/
theorem upload_naming_rule_witness :
    uploadNames "logs" [⟨"a.txt", "extracted-artifacts/logs/a.txt"⟩] = ["a.txt"]
  ∧ uploadNames "build"
        [⟨"x.bin", "extracted-artifacts/build/x.bin"⟩,
         ⟨"y.bin", "extracted-artifacts/build/y.bin"⟩]
      = ["build_x.bin", "build_y.bin"] :=
  ⟨((upload_naming_rule "logs" [⟨"a.txt", "extracted-artifacts/logs/a.txt"⟩]).1
      ⟨"a.txt", "extracted-artifacts/logs/a.txt"⟩ rfl).trans (by decide),
   ((upload_naming_rule "build"
        [⟨"x.bin", "extracted-artifacts/build/x.bin"⟩,
         ⟨"y.bin", "extracted-artifacts/build/y.bin"⟩]).2 (by decide)).trans (by decide)⟩

/-- C7: whenever `downloadArtifact` fails — non-success status, network
error, connection or total timeout, or file write error, possibly after
redirects — the staging file is removed by `cleanup()` before the error
propagates, so a failed download leaves no partial archive behind. -/
theorem download_failure_removes_partial_file (name : String) (step : DownloadStep)
    (e : String) (h : (downloadArtifactRun name step).2 = Except.error e) :
    (downloadArtifactRun name step).1 = false := by
  induction step with
  | redirectTo next ih =>
      simp only [downloadArtifactRun] at h ⊢
      exact ih h
  | completed => simp [downloadArtifactRun] at h
  | httpStatus code => rfl
  | networkError m => rfl
  | connTimeout => rfl
  | totalTimeout => rfl
  | fileWriteError m => rfl

/-- Witness for C7: a download failing with HTTP 500 after one redirect
leaves no staging file. -/
theorem download_failure_removes_partial_file_witness :
    (downloadArtifactRun "my app" (DownloadStep.redirectTo (DownloadStep.httpStatus 500))).1
      = false :=
  download_failure_removes_partial_file "my app"
    (DownloadStep.redirectTo (DownloadStep.httpStatus 500))
    "Failed to download artifact my app: HTTP 500" rfl

/-- C2: for a run over a non-empty artifact list, the terminal status is
the aggregate failure exactly when the total count of files uploaded
across all artifacts is zero; as soon as at least one file is uploaded the
run terminates successfully, regardless of other per-artifact or per-file
failures. -/
theorem orchestrator_overall_status (i : RawInputs) (env : List ArtifactEnv)
    (hv : validateInputs i = Except.ok i) (hne : env ≠ []) :
    ((mainRun i env).2 = Except.error "No files were successfully uploaded to the release"
        ↔ totalFilesUploaded env = 0)
  ∧ (0 < totalFilesUploaded env → (mainRun i env).2 = Except.ok ()) := by
  have hne' : env.isEmpty = false := List.isEmpty_eq_false.mpr hne
  by_cases ht : totalFilesUploaded env = 0
  · simp [mainRun, hv, hne', ht]
  · simp [mainRun, hv, hne', ht]

/-- Witness for C2 on the spec's scenario: artifact `A` fails to download,
artifact `B` uploads its single file; the run succeeds with summary count
equal to `B`'s file count, 1. -/
theorem orchestrator_overall_status_witness :
    (mainRun ⟨"tok", "octo/wf", "123", "octo/rel", "456"⟩
        [⟨"A", ArtifactProcessing.failed "download failed"⟩,
         ⟨"B", ArtifactProcessing.extracted
            [(⟨"b.txt", "extracted-artifacts/B/b.txt"⟩, UploadAttempt.success 7)]⟩]).2
      = Except.ok ()
  ∧ totalFilesUploaded
        [⟨"A", ArtifactProcessing.failed "download failed"⟩,
         ⟨"B", ArtifactProcessing.extracted
            [(⟨"b.txt", "extracted-artifacts/B/b.txt"⟩, UploadAttempt.success 7)]⟩] = 1 :=
  ⟨(orchestrator_overall_status ⟨"tok", "octo/wf", "123", "octo/rel", "456"⟩
      [⟨"A", ArtifactProcessing.failed "download failed"⟩,
       ⟨"B", ArtifactProcessing.extracted
          [(⟨"b.txt", "extracted-artifacts/B/b.txt"⟩, UploadAttempt.success 7)]⟩]
      (by rfl) (by simp)).2 (by decide),
   by decide⟩

/-- C10: the already-exists skip returns `null` and is not counted by
`if (uploadResult) uploadedCount++`; hence a run with a non-empty artifact
list in which every extracted file's upload classifies as the
already-exists skip has total uploaded count zero and terminates as the
aggregate failure, although no individual upload failed. -/
theorem skipped_uploads_do_not_count (i : RawInputs) (env : List ArtifactEnv)
    (hv : validateInputs i = Except.ok i) (hne : env ≠ [])
    (hall : ∀ a ∈ env, artifactAllSkipped a = true) :
    countsAsUploaded UploadFileOutcome.skippedAlreadyExists = false
  ∧ totalFilesUploaded env = 0
  ∧ (mainRun i env).2
      = Except.error "No files were successfully uploaded to the release" := by
  have hcount : ∀ a ∈ env, artifactUploadedCount a = 0 := by
    intro a ha
    have hskip := hall a ha
    obtain ⟨nm, proc⟩ := a
    cases proc with
    | failed m => rfl
    | extracted files =>
        simp only [artifactAllSkipped, List.all_eq_true] at hskip
        simp only [artifactUploadedCount]
        have hnil : files.filter (fun fa =>
            countsAsUploaded
              (uploadFileToRelease (uploadNameFor nm (files.map Prod.fst) fa.1) fa.2)) = [] := by
          rw [List.filter_eq_nil_iff]
          intro fa hfa
          have h1 := hskip fa hfa
          rw [decide_eq_true_iff] at h1
          rw [h1]
          simp [countsAsUploaded]
        rw [hnil]
        rfl
  have htot : totalFilesUploaded env = 0 := by
    unfold totalFilesUploaded
    exact List.sum_eq_zero (by
      intro x hx
      obtain ⟨a, ha, rfl⟩ := List.mem_map.mp hx
      exact hcount a ha)
  have hne' : env.isEmpty = false := List.isEmpty_eq_false.mpr hne
  refine ⟨rfl, htot, ?_⟩
  simp [mainRun, hv, hne', htot]

/-- Witness for C10: one artifact with one extracted file whose upload
answers 422 `already_exists`; the run counts zero uploads and fails. -/
theorem skipped_uploads_do_not_count_witness :
    totalFilesUploaded
        [⟨"A", ArtifactProcessing.extracted
            [(⟨"a.txt", "extracted-artifacts/A/a.txt"⟩,
              UploadAttempt.httpError 422 "already_exists")]⟩] = 0
  ∧ (mainRun ⟨"tok", "octo/wf", "123", "octo/rel", "456"⟩
        [⟨"A", ArtifactProcessing.extracted
            [(⟨"a.txt", "extracted-artifacts/A/a.txt"⟩,
              UploadAttempt.httpError 422 "already_exists")]⟩]).2
      = Except.error "No files were successfully uploaded to the release" := by
  have g := skipped_uploads_do_not_count ⟨"tok", "octo/wf", "123", "octo/rel", "456"⟩
    [⟨"A", ArtifactProcessing.extracted
        [(⟨"a.txt", "extracted-artifacts/A/a.txt"⟩,
          UploadAttempt.httpError 422 "already_exists")]⟩]
    (by rfl) (by simp) (by decide)
  exact ⟨g.2.1, g.2.2⟩

/-- Helper: `takeWhile`/`dropWhile` split a list exactly at the first
character failing the predicate. -/
theorem takeWhile_dropWhile_of_break (p : Char → Bool) (a : List Char) (x : Char)
    (rest : List Char) (ha : ∀ c ∈ a, p c = true) (hx : p x = false) :
    (a ++ x :: rest).takeWhile p = a ∧ (a ++ x :: rest).dropWhile p = x :: rest := by
  induction a with
  | nil => simp [List.takeWhile_cons, List.dropWhile_cons, hx]
  | cons c cs ih =>
      have hc : p c = true := ha c (by simp)
      have ih' := ih (fun d hd => ha d (by simp [hd]))
      simp [List.takeWhile_cons, List.dropWhile_cons, hc, ih'.1, ih'.2]

/-- C8: the repository-slug regex accepts a string exactly when it is two
non-empty runs of characters from `[A-Za-z0-9_.-]` separated by a single
`'/'`; and an input set whose `workflow_repo` or `release_repo` fails the
check makes the run abort with the validation error before any
hosting-API call (empty call trace). -/
theorem repoSlug_validation_characterization (s : String) (i : RawInputs)
    (env : List ArtifactEnv) :
    (validRepoSlug s = true ↔
      ∃ a b : List Char, s.data = a ++ '/' :: b ∧ a ≠ [] ∧ b ≠ []
        ∧ (∀ c ∈ a, allowedNameChar c = true) ∧ (∀ c ∈ b, allowedNameChar c = true))
  ∧ ((validRepoSlug i.workflowRepo = false ∨ validRepoSlug i.releaseRepo = false) →
      (mainRun i env).1 = [] ∧ ∃ e, (mainRun i env).2 = Except.error e) := by
  constructor
  · constructor
    · intro h
      unfold validRepoSlug at h
      cases hd : s.data.dropWhile allowedNameChar with
      | nil => rw [hd] at h; simp at h
      | cons x b =>
          rw [hd] at h
          simp only [Bool.and_eq_true, beq_iff_eq, Bool.not_eq_true',
            List.isEmpty_eq_false, List.all_eq_true] at h
          obtain ⟨⟨⟨hx, hta⟩, hb⟩, hball⟩ := h
          refine ⟨s.data.takeWhile allowedNameChar, b, ?_, hta, hb,
            fun c hc => List.mem_takeWhile_imp hc, hball⟩
          rw [← hx]
          rw [← hd]
          exact (List.takeWhile_append_dropWhile allowedNameChar s.data).symm
    · rintro ⟨a, b, hs, ha, hb, haall, hball⟩
      have hsplit := takeWhile_dropWhile_of_break allowedNameChar a '/' b haall (by decide)
      unfold validRepoSlug
      rw [hs, hsplit.2, hsplit.1]
      simp only [beq_self_eq_true, Bool.true_and, Bool.and_eq_true, Bool.not_eq_true',
        List.isEmpty_eq_false, List.all_eq_true]
      exact ⟨⟨ha, hb⟩, hball⟩
  · intro h
    have hva : ∃ e, validateInputs i = Except.error e := by
      unfold validateInputs
      by_cases h1 : validRepoSlug i.workflowRepo = false
      · exact ⟨_, by rw [if_pos h1]⟩
      · rcases h with h | h
        · exact absurd h h1
        · exact ⟨_, by rw [if_neg h1, if_pos h]⟩
    obtain ⟨e, he⟩ := hva
    refine ⟨?_, e, ?_⟩ <;> simp [mainRun, he]

/-- Witness for C8: the slug `bad repo` (a space is outside the allowed
class) is rejected and the run aborts with an error and an empty call
trace; the characterization applied at the accepted slug `octo/wf`. -/
theorem repoSlug_validation_characterization_witness :
    ((mainRun ⟨"tok", "bad repo", "123", "octo/rel", "456"⟩ []).1 = []
      ∧ ∃ e, (mainRun ⟨"tok", "bad repo", "123", "octo/rel", "456"⟩ []).2 = Except.error e)
  ∧ (∃ a b : List Char, "octo/wf".data = a ++ '/' :: b ∧ a ≠ [] ∧ b ≠ []
      ∧ (∀ c ∈ a, allowedNameChar c = true) ∧ (∀ c ∈ b, allowedNameChar c = true)) :=
  ⟨(repoSlug_validation_characterization "octo/wf"
      ⟨"tok", "bad repo", "123", "octo/rel", "456"⟩ []).2 (Or.inl (by rfl)),
   (repoSlug_validation_characterization "octo/wf"
      ⟨"tok", "bad repo", "123", "octo/rel", "456"⟩ []).1.mp (by rfl)⟩

/-- C9: the numeric-id regex accepts a string exactly when it is a
non-empty sequence of decimal digits; an input set whose `run_id` or
`release_id` fails the check makes the run abort with the validation error
before any hosting-API call (empty call trace). -/
theorem numericId_validation_characterization (s : String) (i : RawInputs)
    (env : List ArtifactEnv) :
    (validNumericId s = true ↔ s.data ≠ [] ∧ ∀ c ∈ s.data, isDigitChar c = true)
  ∧ ((validNumericId i.workflowRunID = false ∨ validNumericId i.releaseID = false) →
      (mainRun i env).1 = [] ∧ ∃ e, (mainRun i env).2 = Except.error e) := by
  constructor
  · unfold validNumericId
    simp [List.all_eq_true, List.isEmpty_eq_false]
  · intro h
    have hva : ∃ e, validateInputs i = Except.error e := by
      unfold validateInputs
      by_cases h1 : validRepoSlug i.workflowRepo = false
      · exact ⟨_, by rw [if_pos h1]⟩
      · by_cases h2 : validRepoSlug i.releaseRepo = false
        · exact ⟨_, by rw [if_neg h1, if_pos h2]⟩
        · by_cases h3 : validNumericId i.workflowRunID = false
          · exact ⟨_, by rw [if_neg h1, if_neg h2, if_pos h3]⟩
          · rcases h with h | h
            · exact absurd h h3
            · exact ⟨_, by rw [if_neg h1, if_neg h2, if_neg h3, if_pos h]⟩
    obtain ⟨e, he⟩ := hva
    refine ⟨?_, e, ?_⟩ <;> simp [mainRun, he]

/-- Witness for C9: the empty string and `-12` are both rejected as ids
and abort the run with an error and an empty call trace. -/
theorem numericId_validation_characterization_witness :
    ((mainRun ⟨"tok", "octo/wf", "", "octo/rel", "456"⟩ []).1 = []
      ∧ ∃ e, (mainRun ⟨"tok", "octo/wf", "", "octo/rel", "456"⟩ []).2 = Except.error e)
  ∧ ((mainRun ⟨"tok", "octo/wf", "-12", "octo/rel", "456"⟩ []).1 = []
      ∧ ∃ e, (mainRun ⟨"tok", "octo/wf", "-12", "octo/rel", "456"⟩ []).2 = Except.error e) :=
  ⟨(numericId_validation_characterization ""
      ⟨"tok", "octo/wf", "", "octo/rel", "456"⟩ []).2 (Or.inl (by rfl)),
   (numericId_validation_characterization "-12"
      ⟨"tok", "octo/wf", "-12", "octo/rel", "456"⟩ []).2 (Or.inl (by rfl))⟩

end UploadArtifacts
